import Mathlib

/-!
Verification of the Voice_DJ command-loop script (src/main.py) against its
natural-language specification.  Each Python function is shallowly embedded
as an executable Lean definition; external SDK calls (vosk, pyaudio, openai,
spotipy) are modelled as explicit inputs describing the value or error each
call produces.
-/

/-! ## Wake-word detector (listen_for_wake_word) -/

/-- Python str.lower for the characters involved (ASCII case folding). -/
def pyLower (s : String) : String := String.mk (s.data.map Char.toLower)

/-- Whether the pattern is an initial segment of the list (character-wise). -/
def leadsWith : List Char → List Char → Bool
  | [], _ => true
  | _ :: _, [] => false
  | a :: as, b :: bs => a == b && leadsWith as bs

/-- Whether the pattern occurs contiguously somewhere in the list. -/
def containsAux (pat : List Char) : List Char → Bool
  | [] => pat.isEmpty
  | c :: rest => leadsWith pat (c :: rest) || containsAux pat rest

/-- Python substring membership: needle occurs in hay (the operator in). -/
def pyIn (needle hay : String) : Bool := containsAux needle.data hay.data

/-- One recognizer report per audio frame: AcceptWaveform either finalizes an
utterance with the given text, or leaves an in-progress hypothesis with the
given text (vosk clears the in-progress hypothesis when it finalizes). -/
inductive RecEvent
  | finalEv (text : String)
  | interimEv (text : String)
deriving DecidableEq

/-- The raw JSON string vosk's PartialResult returns for an in-progress
hypothesis text, as read by the Python code. -/
def interimJson (t : String) : String := "\x7b\n  \"partial\" : \"" ++ t ++ "\"\n\x7d"

/-- Python condition: if partial and len(partial) > 100. -/
def interimCheck (p : String) : Bool := decide (p.length ≠ 0) && decide (100 < p.length)

/-- What one iteration of listen_for_wake_word does: whether it returns to the
caller (wake word heard in a finalized utterance) and whether it calls
recognizer.Reset(). -/
structure StepOut where
  triggered : Bool
  resetCalled : Bool
deriving DecidableEq

/-- One iteration of the listen_for_wake_word loop body on one frame. -/
def listenStep (w : String) : RecEvent → StepOut
  | RecEvent.finalEv t =>
    if pyIn w (pyLower t) then ⟨true, false⟩
    else ⟨false, interimCheck (interimJson "")⟩
  | RecEvent.interimEv t => ⟨false, interimCheck (interimJson t)⟩

/-- listen_for_wake_word over a finite prefix of recognizer events, threading
the count of Reset() calls performed on the recognizer; returns whether it
returned to the caller within that prefix. -/
def listenRun (w : String) : List RecEvent → Nat → Bool × Nat
  | [], r => (false, r)
  | e :: es, r =>
    if (listenStep w e).triggered then (true, r)
    else listenRun w es (r + if (listenStep w e).resetCalled then 1 else 0)

/-- The main loop threads one recognizer through every cycle; recording,
transcription and playback take no recognizer, so a cycle's effect on the
recognizer is exactly the detector's. -/
def assistantCycles (w : String) : List (List RecEvent) → Nat → Nat
  | [], r => r
  | evs :: rest, r => assistantCycles w rest (listenRun w evs r).2

/-- Modelled from the spec's wording of the wake-word test in claim C3:
containment that is case-insensitive in both the utterance and the
configured wake word. -/
def specWakeMatch (w t : String) : Bool := pyIn (pyLower w) (pyLower t)

lemma listenStep_triggered_iff (w : String) (e : RecEvent) :
    (listenStep w e).triggered = true ↔
      ∃ t, e = RecEvent.finalEv t ∧ pyIn w (pyLower t) = true := by
  cases e with
  | finalEv t =>
    by_cases h : pyIn w (pyLower t) = true
    · simp [listenStep, h]
    · simp [listenStep, h]
  | interimEv t => simp [listenStep]

/-- Claim C3 (corrected part): the detector lowercases the utterance but not
the configured wake word, so a wake word configured with an uppercase letter
is missed even when it occurs (case-insensitively) in the utterance. -/
theorem listen_case_counterexample :
    specWakeMatch "Assistant" "assistant" = true ∧
    (listenStep "Assistant" (RecEvent.finalEv "assistant")).triggered = false := by
  decide

/-- Claim C3 (amended): over any finite sequence of recognizer reports, the
detector transitions to TRIGGERED (returns) iff some finalized utterance's
lowercased text contains the configured wake word exactly as configured (the
wake word itself is not lowercased); otherwise it stays in LISTENING. -/
theorem listen_trigger_iff (w : String) (evs : List RecEvent) (r : Nat) :
    (listenRun w evs r).1 = true ↔
      ∃ t, RecEvent.finalEv t ∈ evs ∧ pyIn w (pyLower t) = true := by
  induction evs generalizing r with
  | nil => simp [listenRun]
  | cons e es ih =>
    by_cases h : (listenStep w e).triggered = true
    · rcases (listenStep_triggered_iff w e).mp h with ⟨t, het, ht⟩
      constructor
      · intro _
        exact ⟨t, by simp [het], ht⟩
      · intro _
        simp [listenRun, h]
    · have hne : ¬ ∃ t, e = RecEvent.finalEv t ∧ pyIn w (pyLower t) = true := by
        intro hc
        exact h ((listenStep_triggered_iff w e).mpr hc)
      constructor
      · intro hrun
        have : (listenRun w es (r + if (listenStep w e).resetCalled then 1 else 0)).1 = true := by
          simpa [listenRun, h] using hrun
        rcases (ih _).mp this with ⟨t, hmem, ht⟩
        exact ⟨t, List.mem_cons_of_mem _ hmem, ht⟩
      · intro hex
        rcases hex with ⟨t, hmem, ht⟩
        rcases List.mem_cons.mp hmem with heq | hmem
        · exact absurd ⟨t, heq.symm, ht⟩ hne
        · have : (listenRun w es (r + if (listenStep w e).resetCalled then 1 else 0)).1 = true :=
            (ih _).mpr ⟨t, hmem, ht⟩
          simpa [listenRun, h] using this

theorem listen_trigger_iff_witness :
    (listenRun "assistant" [RecEvent.finalEv "hey assistant"] 0).1 = true :=
  (listen_trigger_iff "assistant" [RecEvent.finalEv "hey assistant"] 0).mpr
    ⟨"hey assistant", by decide, by decide⟩

lemma interimJson_length (t : String) : (interimJson t).length = t.length + 20 := by
  have h1 : ("\x7b\n  \"partial\" : \"" : String).length = 17 := rfl
  have h2 : ("\"\n\x7d" : String).length = 3 := rfl
  simp only [interimJson, String.length_append, h1, h2]
  omega

/-- Claim C4: a reported in-progress hypothesis whose text exceeds 100
characters always makes the detector call recognizer.Reset(); that step never
triggers, and the loop goes on listening with one more reset recorded. -/
theorem interim_overflow_resets (w t : String) (es : List RecEvent) (r : Nat)
    (h : 100 < t.length) :
    listenStep w (RecEvent.interimEv t) = ⟨false, true⟩ ∧
    listenRun w (RecEvent.interimEv t :: es) r = listenRun w es (r + 1) := by
  have hc : interimCheck (interimJson t) = true := by
    have hl := interimJson_length t
    simp only [interimCheck, hl, Bool.and_eq_true, decide_eq_true_eq]
    omega
  have hs : listenStep w (RecEvent.interimEv t) = ⟨false, true⟩ := by
    simp [listenStep, hc]
  refine ⟨hs, ?_⟩
  simp [listenRun, hs]

/-- A 101-character hypothesis text. -/
def a101 : String := String.mk (List.replicate 101 'a')

theorem interim_overflow_resets_witness :
    100 < a101.length ∧
    listenStep "assistant" (RecEvent.interimEv a101) = ⟨false, true⟩ :=
  ⟨by decide, (interim_overflow_resets "assistant" a101 [] 0 (by decide)).1⟩

/-- Claim C10: when the detector returns because the wake word was heard, the
returning step performs no recognizer reset, the reset count at return equals
the count before that step, and the same recognizer state (untouched by
recording, transcription and playback) enters every subsequent cycle. -/
theorem trigger_preserves_recognizer (w : String) (e : RecEvent) (es : List RecEvent)
    (r : Nat) (h : (listenStep w e).triggered = true) :
    (listenStep w e).resetCalled = false ∧
    listenRun w (e :: es) r = (true, r) ∧
    ∀ rest, assistantCycles w ((e :: es) :: rest) r = assistantCycles w rest r := by
  have hrc : (listenStep w e).resetCalled = false := by
    rcases (listenStep_triggered_iff w e).mp h with ⟨t, het, ht⟩
    subst het
    simp [listenStep, ht]
  have hrun : listenRun w (e :: es) r = (true, r) := by
    simp [listenRun, h]
  exact ⟨hrc, hrun, fun rest => by simp [assistantCycles, hrun]⟩

theorem trigger_preserves_recognizer_witness :
    (listenStep "assistant" (RecEvent.finalEv "ok assistant")).triggered = true ∧
    (listenStep "assistant" (RecEvent.finalEv "ok assistant")).resetCalled = false :=
  ⟨by decide,
   (trigger_preserves_recognizer "assistant" (RecEvent.finalEv "ok assistant") [] 0
     (by decide)).1⟩

/-! ## Phrase recorder (record_phrase) -/

/-- Python int() applied to an exact rational value: truncation toward zero.
The float arithmetic in record_phrase (16000/4000 * seconds, a multiplication
by the exact power of two 4.0) is exact, so the rational model is faithful. -/
def pyInt (q : ℚ) : Int := q.num.tdiv (q.den : Int)

/-- Number of loop iterations in record_phrase: range(int(16000/4000 * seconds)). -/
def frameTotal (seconds : ℚ) : Nat := (pyInt ((16000 : ℚ) / 4000 * seconds)).toNat

/-- record_phrase: read frameTotal frames of 4000 samples from the stream and
join them.  The stream is modelled by the byte chunk each successive
stream.read(4000) call returns. -/
def record_phrase (stream : Nat → List UInt8) (seconds : ℚ) : List UInt8 :=
  ((List.range (frameTotal seconds)).map stream).flatten

lemma record_phrase_len_aux (stream : Nat → List UInt8) (n : Nat)
    (h : ∀ i, (stream i).length = 8000) :
    (((List.range n).map stream).flatten).length = n * 8000 := by
  induction n with
  | zero => simp
  | succ k ih =>
    rw [List.range_succ, List.map_append, List.flatten_append, List.length_append, ih]
    simp [h k]
    omega

/-- A reliable silent stream: every read yields 4000 16-bit samples. -/
def silentStream : Nat → List UInt8 := fun _ => List.replicate 8000 0

/-- Claim C5 (corrected part): for a fractional duration whose frame count
4 × duration is not an integer (here one eighth of a second, a value exact in
binary floating point), the truncation in range(int(...)) makes the returned
buffer shorter than duration × 16000 × 2 bytes. -/
theorem record_phrase_fractional_counterexample :
    (∀ i, (silentStream i).length = 8000) ∧
    ¬ (((record_phrase silentStream (1 / 8)).length : ℚ) = (1 / 8 : ℚ) * 16000 * 2) := by
  constructor
  · intro i
    exact List.length_replicate _ _
  · have h0 : frameTotal (1 / 8) = 0 := by
      norm_num [frameTotal, pyInt]
      decide
    rw [record_phrase, h0]
    norm_num

/-- Claim C5 (amended): over a reliable stream record_phrase reads exactly
int(duration × 16000 / 4000) frames (truncated toward zero) and returns that
many × 8000 bytes; whenever duration × 16000 / 4000 is a whole number — in
particular the default 5 seconds — this equals duration × 16000 × 2 bytes. -/
theorem record_phrase_spec (stream : Nat → List UInt8) (seconds : ℚ)
    (hrel : ∀ i, (stream i).length = 8000) :
    (record_phrase stream seconds).length = frameTotal seconds * 8000 ∧
    ∀ k : Nat, (16000 : ℚ) / 4000 * seconds = (k : ℚ) →
      ((record_phrase stream seconds).length : ℚ) = seconds * 16000 * 2 := by
  have hlen : (record_phrase stream seconds).length = frameTotal seconds * 8000 :=
    record_phrase_len_aux stream (frameTotal seconds) hrel
  refine ⟨hlen, fun k hk => ?_⟩
  have hft : frameTotal seconds = k := by
    unfold frameTotal pyInt
    rw [hk, Rat.num_natCast, Rat.den_natCast]
    rw [Nat.cast_one, Int.tdiv_one]
    exact Int.toNat_natCast k
  have hs : seconds * 4 = (k : ℚ) := by
    have h4 : (16000 : ℚ) / 4000 = 4 := by norm_num
    rw [h4] at hk
    linarith
  rw [hlen, hft]
  push_cast
  linarith

theorem record_phrase_spec_witness :
    (∀ i, (silentStream i).length = 8000) ∧
    ((record_phrase silentStream 5).length : ℚ) = 5 * 16000 * 2 :=
  ⟨fun _ => List.length_replicate _ _,
   (record_phrase_spec silentStream 5 (fun _ => List.length_replicate _ _)).2 20 (by norm_num)⟩

/-! ## Command executor (search_and_play) -/

/-- The projection of a search-result item that search_and_play reads. -/
structure Track where
  uri : String
  name : String
  artist : String
deriving DecidableEq

/-- A playback device as search_and_play reads it. -/
structure Device where
  id : String
deriving DecidableEq

/-- An authenticated spotipy client, modelled by the outcome of each service
call search_and_play makes during one execution: the track list of
sp.search(...)["tracks"]["items"], the device list of sp.devices() (none for
a falsy response), and sp.start_playback keyed by device id and track URI.
An error value models a raised exception (network error or malformed
response). -/
structure SpClient where
  search : String → Except String (List Track)
  getDevices : Except String (Option (List Device))
  startPlayback : String → String → Except String Unit

/-- search_and_play: the returned Python value (none would model a path that
falls off the function without a return statement) paired with the list of
start_playback invocations (device id, track URI) performed.  The enclosing
try/except converts every raised error into the return value False. -/
def search_and_play (sp : SpClient) (query : String) :
    Option Bool × List (String × String) :=
  match sp.search query with
  | Except.error _ => (some false, [])
  | Except.ok [] => (some false, [])
  | Except.ok (track :: _) =>
    match sp.getDevices with
    | Except.error _ => (some false, [])
    | Except.ok none => (some false, [])
    | Except.ok (some []) => (some false, [])
    | Except.ok (some (d :: _)) =>
      match sp.startPlayback d.id track.uri with
      | Except.error _ => (some false, [(d.id, track.uri)])
      | Except.ok _ => (some true, [(d.id, track.uri)])

/-- Claim C6: search_and_play always returns the boolean False on failure and
True on success — never Python None, and never lets a service error escape;
True occurs only when search found a match, a device was present, and the
playback call went through. -/
theorem search_and_play_normalized (sp : SpClient) (query : String) :
    ((search_and_play sp query).1 = some true ∨ (search_and_play sp query).1 = some false) ∧
    ((search_and_play sp query).1 = some true →
      ∃ t ts d ds, sp.search query = Except.ok (t :: ts) ∧
        sp.getDevices = Except.ok (some (d :: ds)) ∧
        sp.startPlayback d.id t.uri = Except.ok ()) := by
  rcases hs : sp.search query with es | ts
  · simp [search_and_play, hs]
  · rcases ts with _ | ⟨t, ts⟩
    · simp [search_and_play, hs]
    · rcases hd : sp.getDevices with ed | od
      · simp [search_and_play, hs, hd]
      · rcases od with _ | ds
        · simp [search_and_play, hs, hd]
        · rcases ds with _ | ⟨d, ds⟩
          · simp [search_and_play, hs, hd]
          · rcases hp : sp.startPlayback d.id t.uri with e | u
            · simp [search_and_play, hs, hd, hp]
            · cases u
              refine ⟨Or.inl ?_, fun _ => ⟨t, ts, d, ds, rfl, rfl, hp⟩⟩
              simp [search_and_play, hs, hd, hp]

/-- Claim C7: with a top search match but zero available devices (empty list
or falsy response), search_and_play reports failure and never invokes
start_playback. -/
theorem search_and_play_no_device (sp : SpClient) (query : String)
    (t : Track) (ts : List Track)
    (hs : sp.search query = Except.ok (t :: ts))
    (hd : sp.getDevices = Except.ok (some []) ∨ sp.getDevices = Except.ok none) :
    search_and_play sp query = (some false, []) := by
  rcases hd with hd | hd <;> simp [search_and_play, hs, hd]

/-- A concrete track and device for the witnesses. -/
def trk : Track := ⟨"spotify:track:123", "Imagine", "John Lennon"⟩

def dev1 : Device := ⟨"device-1"⟩

/-- A client whose search succeeds but which has no active device. -/
def noDevClient : SpClient :=
  ⟨fun _ => Except.ok [trk], Except.ok (some []), fun _ _ => Except.ok ()⟩

theorem search_and_play_no_device_witness :
    noDevClient.search "Imagine" = Except.ok [trk] ∧
    search_and_play noDevClient "Imagine" = (some false, []) :=
  ⟨rfl, search_and_play_no_device noDevClient "Imagine" trk [] rfl (Or.inl rfl)⟩

/-- A client for which search matches, one device is active, but the
start_playback call raises a service error. -/
def flakyClient : SpClient :=
  ⟨fun _ => Except.ok [trk], Except.ok (some [dev1]), fun _ _ => Except.error "API error"⟩

/-- Claim C8 (corrected part): with a top match and an available device, if
the start_playback call itself raises, search_and_play returns False, not
True — the call is still made with the right arguments. -/
theorem search_and_play_playback_error_counterexample :
    flakyClient.search "Imagine" = Except.ok [trk] ∧
    flakyClient.getDevices = Except.ok (some [dev1]) ∧
    (search_and_play flakyClient "Imagine").2 = [(dev1.id, trk.uri)] ∧
    ¬ ((search_and_play flakyClient "Imagine").1 = some true) := by
  refine ⟨rfl, rfl, rfl, ?_⟩
  simp [search_and_play, flakyClient]

/-- Claim C8 (amended): with a top search match and at least one device,
search_and_play invokes start_playback exactly once, with exactly the top
match's URI on the first enumerated device's id; it returns True when that
call succeeds and False (error caught) when it raises. -/
theorem search_and_play_playback (sp : SpClient) (query : String)
    (t : Track) (ts : List Track) (d : Device) (ds : List Device)
    (hs : sp.search query = Except.ok (t :: ts))
    (hd : sp.getDevices = Except.ok (some (d :: ds))) :
    (search_and_play sp query).2 = [(d.id, t.uri)] ∧
    (sp.startPlayback d.id t.uri = Except.ok () → (search_and_play sp query).1 = some true) ∧
    (∀ e, sp.startPlayback d.id t.uri = Except.error e →
      (search_and_play sp query).1 = some false) := by
  refine ⟨?_, ?_, ?_⟩
  · rcases hp : sp.startPlayback d.id t.uri with e | u
    · simp [search_and_play, hs, hd, hp]
    · simp [search_and_play, hs, hd, hp]
  · intro hok
    simp [search_and_play, hs, hd, hok]
  · intro e2 herr
    simp [search_and_play, hs, hd, herr]

/-- A fully functional client. -/
def okClient : SpClient :=
  ⟨fun _ => Except.ok [trk], Except.ok (some [dev1]), fun _ _ => Except.ok ()⟩

theorem search_and_play_playback_witness :
    (search_and_play okClient "Imagine").2 = [(dev1.id, trk.uri)] ∧
    (search_and_play okClient "Imagine").1 = some true :=
  ⟨(search_and_play_playback okClient "Imagine" trk [] dev1 [] rfl rfl).1,
   (search_and_play_playback okClient "Imagine" trk [] dev1 [] rfl rfl).2.1 rfl⟩

theorem search_and_play_normalized_witness :
    (search_and_play noDevClient "Imagine").1 = some true ∨
    (search_and_play noDevClient "Imagine").1 = some false :=
  (search_and_play_normalized noDevClient "Imagine").1

/-! ## Transcriber (transcribe) -/

/-- Python str.strip(): remove leading and trailing whitespace. -/
def pyStrip (s : String) : String :=
  String.mk (((s.data.dropWhile Char.isWhitespace).reverse.dropWhile
    Char.isWhitespace).reverse)

/-- File-system actions transcribe performs on its temporary WAV artifact. -/
inductive FsEvent
  | tempCreate
  | wavWrite
  | wavClose
  | unlink
deriving DecidableEq

/-- transcribe: create a named temporary WAV file, write the samples (the
writer is closed in a finally block), send the file to the hosted
transcription service, and only after a successful call unlink the file and
return the stripped text.  A raised service error propagates before the
os.unlink line is reached, so the trace then contains no unlink. -/
def transcribe (api : List UInt8 → Except String String) (data : List UInt8) :
    Except String String × List FsEvent :=
  match api data with
  | Except.error e =>
      (Except.error e, [FsEvent.tempCreate, FsEvent.wavWrite, FsEvent.wavClose])
  | Except.ok t =>
      (Except.ok (pyStrip t),
       [FsEvent.tempCreate, FsEvent.wavWrite, FsEvent.wavClose, FsEvent.unlink])

/-- A hosted call that raises a network error. -/
def failingApi : List UInt8 → Except String String := fun _ => Except.error "network error"

/-- A hosted call that succeeds with whitespace-padded text. -/
def okApi : List UInt8 → Except String String := fun _ => Except.ok " hello \n"

/-- Claim C2 (code bug): when the hosted transcription call raises, the
temporary WAV file is never unlinked (deletion happens only on the success
path, where the trimmed text is returned). -/
theorem transcribe_leaks_temp_on_error :
    (transcribe failingApi []).2.count FsEvent.unlink = 0 ∧
    (transcribe failingApi []).1 = Except.error "network error" ∧
    (transcribe okApi []).2.count FsEvent.unlink = 1 ∧
    (transcribe okApi []).1 = Except.ok "hello" := by
  refine ⟨by decide, rfl, by decide, rfl⟩

/-! ## Main loop (main) -/

/-- Trace events of one run of main after the model check and authentication
succeed. -/
inductive MainEvent
  | streamOpen
  | listenPhase
  | recordPhase
  | transcribePhase
  | executePhase
  | streamStop
  | streamClose
  | audioTerminate
deriving DecidableEq

/-- What happens in one cycle of the while loop: none means recording,
transcription and playback all complete (search_and_play catches its own
errors, claim C6), some e means the transcribe call raises e. -/
structure CycleSpec where
  transcribeErr : Option String
deriving DecidableEq

/-- How a finite run of the while True loop ends: a KeyboardInterrupt caught
by the except clause, or an exception that propagates out of the loop. -/
inductive RunExit
  | interrupted
  | uncaught (e : String)
deriving DecidableEq

/-- The while True body over the given cycles: phases executed and, when a
transcription raises, the exception leaving the loop.  The body of main
catches only KeyboardInterrupt, so a transcription error stops the loop. -/
def runCycles : List CycleSpec → List MainEvent × Option String
  | [] => ([], none)
  | c :: cs =>
    match c.transcribeErr with
    | some e =>
        ([MainEvent.listenPhase, MainEvent.recordPhase, MainEvent.transcribePhase], some e)
    | none =>
        let rest := runCycles cs
        (MainEvent.listenPhase :: MainEvent.recordPhase :: MainEvent.transcribePhase ::
           MainEvent.executePhase :: rest.1, rest.2)

/-- A finite run of main from the point the stream is opened: the loop runs
until either a cycle's transcription raises (the error escapes the loop) or,
after all listed cycles, a KeyboardInterrupt arrives.  Either way the finally
block stops the stream, closes it and terminates the audio subsystem. -/
def mainRun (cycles : List CycleSpec) : List MainEvent × RunExit :=
  let body := runCycles cycles
  (MainEvent.streamOpen :: body.1 ++
     [MainEvent.streamStop, MainEvent.streamClose, MainEvent.audioTerminate],
   match body.2 with
   | some e => RunExit.uncaught e
   | none => RunExit.interrupted)

lemma runCycles_no_teardown (cycles : List CycleSpec) :
    (runCycles cycles).1.count MainEvent.streamOpen = 0 ∧
    (runCycles cycles).1.count MainEvent.streamStop = 0 ∧
    (runCycles cycles).1.count MainEvent.streamClose = 0 ∧
    (runCycles cycles).1.count MainEvent.audioTerminate = 0 := by
  induction cycles with
  | nil => simp [runCycles]
  | cons c cs ih =>
    rcases c with ⟨te⟩
    rcases te with _ | e
    · simpa [runCycles, List.count_cons] using ih
    · simp [runCycles, List.count_cons]

/-- Claim C9: on every exit from the main loop — interrupt after any number
of cycles, or an exception raised inside a cycle — the trace stops the
stream, closes it and terminates the audio subsystem exactly once each, with
exactly one stream open. -/
theorem main_teardown_once (cycles : List CycleSpec) :
    (mainRun cycles).1.count MainEvent.streamOpen = 1 ∧
    (mainRun cycles).1.count MainEvent.streamStop = 1 ∧
    (mainRun cycles).1.count MainEvent.streamClose = 1 ∧
    (mainRun cycles).1.count MainEvent.audioTerminate = 1 := by
  have h := runCycles_no_teardown cycles
  unfold mainRun
  simp [List.count_cons, List.count_append, h.1, h.2.1, h.2.2.1, h.2.2.2]

/-- Claim C1 (code bug): main catches only KeyboardInterrupt, so when a
cycle's transcription raises, the exception escapes the loop after teardown
and the process stops — despite a second cycle being pending, the trace never
returns to a listening phase. -/
theorem transcription_error_kills_loop :
    mainRun [⟨some "network error"⟩, ⟨none⟩] =
      ([MainEvent.streamOpen, MainEvent.listenPhase, MainEvent.recordPhase,
        MainEvent.transcribePhase, MainEvent.streamStop, MainEvent.streamClose,
        MainEvent.audioTerminate], RunExit.uncaught "network error") ∧
    (mainRun [⟨some "network error"⟩, ⟨none⟩]).1.count MainEvent.listenPhase = 1 := by
  refine ⟨rfl, by decide⟩
